import Mathlib

/-!
Shallow embedding of `tox_pyenv.py` (tox-pyenv 1.1.0).

The plugin's resolver, `tox_get_python_executable`, launches external
`pyenv` subprocesses.  The embedding makes the environment explicit: a
`World` records, for each of the up to three subprocess launch attempts
(the initial `pyenv which`, the optional `pyenv install`, and the retried
`pyenv which`), whether `Popen` raised `OSError` or a process ran and what
its exit code, stdout and stderr were; it also records what the PATH
search `py.path.local.sysfind` returned.  The hook's three exits —
returning a path string, returning `None` (so tox falls back to its own
lookup), and raising `PyenvWhichFailed` — become the three constructors of
`ResolveResult`.
-/

/-- Result of a child process that did launch: its exit code (the value of
`pipe.poll()` after `communicate()`), and the captured stdout and stderr
(`universal_newlines=True`, so both are text). -/
structure ProcResult where
  exitCode : Int
  stdout : String
  stderr : String
deriving Repr, DecidableEq

/-- What happened when the code tried to launch one subprocess:
either `subprocess.Popen` raised `OSError`, or a process ran to completion
with the given result. -/
inductive LaunchOutcome where
  | osError : LaunchOutcome
  | launched : ProcResult → LaunchOutcome
deriving Repr, DecidableEq

/-- The `(pipe, out, err, cmd)` tuple returned by the inner function
`run_pyenv` (src/tox_pyenv.py lines 84–103).  On `OSError`, `pipe` and
`out` keep their initial `None` and `err` is the synthesized string; when
the process ran, `out` and `err` are the strings from `communicate()`. -/
structure RunState where
  pipe : Option ProcResult
  out : Option String
  err : String
  cmd : List String
deriving Repr, DecidableEq

/-- Line 90–91: `getattr(py.path.local.sysfind('pyenv'), 'strpath', 'pyenv')
or 'pyenv'`.  `sysfind` models the PATH search: `none` when nothing named
`pyenv` was found, otherwise the found path's string.  A missing result or
an empty string both fall back to the literal name `"pyenv"`. -/
def pyenvExecutable (sysfind : Option String) : String :=
  match sysfind with
  | none => "pyenv"
  | some s => if s = "" then "pyenv" else s

/-- Lines 84–103, `run_pyenv(command, err_string_on_os_error, ...)`:
build `cmd = [pyenv, command, basepython]`, launch it, and return the
`(pipe, out, err, cmd)` state.  The log-string argument only feeds
`LOG.warning` and is not modelled. -/
def run_pyenv (sysfind : Option String) (command : String)
    (basepython : String) (outcome : LaunchOutcome)
    (errStringOnOsError : String) : RunState :=
  let cmd := [pyenvExecutable sysfind, command, basepython]
  match outcome with
  | LaunchOutcome.osError => ⟨none, none, errStringOnOsError, cmd⟩
  | LaunchOutcome.launched r => ⟨some r, some r.stdout, r.stderr, cmd⟩

/-- Lines 105–112, `find_using_pyenv`: `run_pyenv('which', ...)` with the
synthesized error string `'pyenv': command not found`. -/
def find_using_pyenv (basepython : String) (sysfind : Option String)
    (outcome : LaunchOutcome) : RunState :=
  run_pyenv sysfind "which" basepython outcome
    "\x27pyenv\x27: command not found"

/-- Lines 114–121, `install_using_pyenv`: `run_pyenv('install', ...)` with
the synthesized error string `install failed`. -/
def install_using_pyenv (basepython : String) (sysfind : Option String)
    (outcome : LaunchOutcome) : RunState :=
  run_pyenv sysfind "install" basepython outcome "install failed"

/-- The fields of tox's `envconfig` that the hook reads: `.basepython`
and the two plugin flags (after their postprocess step). -/
structure EnvConfig where
  basepython : String
  tox_pyenv_auto_install : Bool
  tox_pyenv_fallback : Bool
deriving Repr, DecidableEq

/-- One resolve call's external environment: the PATH-search result for
`pyenv` and the launch outcome of each subprocess the call may attempt,
in program order. -/
structure World where
  sysfind : Option String
  firstWhich : LaunchOutcome
  install : LaunchOutcome
  retryWhich : LaunchOutcome
deriving Repr, DecidableEq

/-- The hook's three exits: return a path string (line 126/134), raise
`PyenvWhichFailed err` (line 138), or return `None` after the debug log
(fall off the end, line 139–143) so tox defers to its own lookup. -/
inductive ResolveResult where
  | Found : String → ResolveResult
  | Deferred : ResolveResult
  | Raised : String → ResolveResult
deriving Repr, DecidableEq

/-- Line 125/133, the test `pipe and pipe.poll() == 0`: a process object
exists (a `Popen` object is always truthy) and its exit code is 0. -/
def pollZero (s : RunState) : Bool :=
  match s.pipe with
  | some r => r.exitCode == 0
  | none => false

/-- Whitespace characters removed by Python's `str.strip()` with no
argument (the ASCII ones: space, tab, newline, carriage return, vertical
tab, form feed). -/
def isStripWhitespace (c : Char) : Bool :=
  c == ' ' || c == '\t' || c == '\n' || c == '\r' || c == '\x0b' || c == '\x0c'

/-- Python's `str.strip()` with no argument: remove leading and trailing
whitespace characters. -/
def strip (s : String) : String :=
  String.mk
    (((s.data.dropWhile isStripWhitespace).reverse.dropWhile
        isStripWhitespace).reverse)

/-- Line 126/134, `out.strip()`: the captured stdout with leading and
trailing whitespace stripped (at these lines `out` is never `None`). -/
def stripOut (s : RunState) : String := strip (s.out.getD "")

/-- Lines 136–143: with `tox_pyenv_fallback` false, raise
`PyenvWhichFailed(err)`; otherwise log and return `None`. -/
def fallbackOrRaise (cfg : EnvConfig) (s : RunState) : ResolveResult :=
  if !cfg.tox_pyenv_fallback then ResolveResult.Raised s.err
  else ResolveResult.Deferred

/-- Lines 123–143, the body of `tox_get_python_executable`, paired with a
count of the `Popen` attempts made along the executed path (one per
`run_pyenv` call).  Line 130's test `pipe and not err` is
`pipe.isSome && err == ""` (both strings are text, and on `OSError` the
non-empty synthesized string makes `not err` false). -/
def resolveWithCount (cfg : EnvConfig) (w : World) : ResolveResult × Nat :=
  let s := find_using_pyenv cfg.basepython w.sysfind w.firstWhich
  if pollZero s then (ResolveResult.Found (stripOut s), 1)
  else if cfg.tox_pyenv_auto_install then
    let si := install_using_pyenv cfg.basepython w.sysfind w.install
    if si.pipe.isSome && si.err == "" then
      let sw := find_using_pyenv cfg.basepython w.sysfind w.retryWhich
      if pollZero sw then (ResolveResult.Found (stripOut sw), 3)
      else (fallbackOrRaise cfg sw, 3)
    else (fallbackOrRaise cfg si, 2)
  else (fallbackOrRaise cfg s, 1)

/-- The hook `tox_get_python_executable` itself (lines 73–143). -/
def tox_get_python_executable (cfg : EnvConfig) (w : World) : ResolveResult :=
  (resolveWithCount cfg w).1

/-- How many `Popen` attempts one resolve call makes. -/
def processCount (cfg : EnvConfig) (w : World) : Nat :=
  (resolveWithCount cfg w).2

/-- Did the `pyenv which` attempt succeed: a process ran and exited 0. -/
def whichOk (o : LaunchOutcome) : Bool :=
  match o with
  | LaunchOutcome.osError => false
  | LaunchOutcome.launched r => r.exitCode == 0

/-- The `err` a `which` attempt leaves behind: the captured stderr when a
process ran, the synthesized string when the launch raised `OSError`. -/
def whichErr (o : LaunchOutcome) : String :=
  match o with
  | LaunchOutcome.osError => "\x27pyenv\x27: command not found"
  | LaunchOutcome.launched r => r.stderr

/-- The `err` an `install` attempt leaves behind: the captured stderr when
a process ran, the synthesized `install failed` on `OSError`. -/
def installErr (o : LaunchOutcome) : String :=
  match o with
  | LaunchOutcome.osError => "install failed"
  | LaunchOutcome.launched r => r.stderr

/-- Line 130's retry condition on the install attempt: the process
launched and its captured stderr is empty.  The exit code plays no role. -/
def installTriggersRetry (o : LaunchOutcome) : Bool :=
  match o with
  | LaunchOutcome.osError => false
  | LaunchOutcome.launched r => r.stderr == ""

/-- The `err` in scope at line 137 when the auto-install branch ran but
found nothing: the retried which's `err` if the retry happened, the
install attempt's `err` otherwise. -/
def autoFallthroughErr (w : World) : String :=
  if installTriggersRetry w.install then whichErr w.retryWhich
  else installErr w.install

/-- Lines 204–210: the `--tox-pyenv-auto-install` / `-I` argparse option
is declared with `default=False` and `action='store_false'`, so the
parsed destination value as a function of whether the flag appears on the
command line. -/
def parsed_tox_pyenv_auto_install (flagPresent : Bool) : Bool :=
  if flagPresent then false else false

/-- Lines 163–169: the `--tox-pyenv-no-fallback` / `-F` argparse option is
declared with `default=True` and `action='store_false'`. -/
def parsed_tox_pyenv_fallback (flagPresent : Bool) : Bool :=
  if flagPresent then false else true

/-- Lines 171–173, the testenv-attribute postprocess `_pyenv_fallback`:
`cli_says or value` on booleans. -/
def _pyenv_fallback (cliSays : Bool) (value : Bool) : Bool :=
  cliSays || value

/-- Lines 212–214, the testenv-attribute postprocess `_pyenv_auto_install`:
`cli_says or value` on booleans. -/
def _pyenv_auto_install (cliSays : Bool) (value : Bool) : Bool :=
  cliSays || value

/-- `pollZero` of a `which` run state is `whichOk` of its launch outcome. -/
theorem pollZero_find (b : String) (sf : Option String) (o : LaunchOutcome) :
    pollZero (find_using_pyenv b sf o) = whichOk o := by
  cases o <;> rfl

/-- The `err` field of a `which` run state is `whichErr` of its outcome. -/
theorem err_find (b : String) (sf : Option String) (o : LaunchOutcome) :
    (find_using_pyenv b sf o).err = whichErr o := by
  cases o <;> rfl

/-- The `err` field of an `install` run state is `installErr`. -/
theorem err_install (b : String) (sf : Option String) (o : LaunchOutcome) :
    (install_using_pyenv b sf o).err = installErr o := by
  cases o <;> rfl

/-- Line 130's condition on the install run state equals
`installTriggersRetry` of its launch outcome. -/
theorem retry_cond_install (b : String) (sf : Option String)
    (o : LaunchOutcome) :
    ((install_using_pyenv b sf o).pipe.isSome
        && (install_using_pyenv b sf o).err == "") = installTriggersRetry o := by
  cases o with
  | osError => rfl
  | launched r => simp [install_using_pyenv, run_pyenv, installTriggersRetry]

/-- `stripOut` of a launched `which` run state is `strip` of its stdout. -/
theorem stripOut_find (b : String) (sf : Option String) (r : ProcResult) :
    stripOut (find_using_pyenv b sf (LaunchOutcome.launched r))
      = strip r.stdout := by
  rfl

/-- Exit of the hook when the initial `which` succeeded: the stripped
stdout is returned and only one process was attempted. -/
theorem resolve_which_ok (cfg : EnvConfig) (w : World)
    (hok : whichOk w.firstWhich = true) :
    tox_get_python_executable cfg w
      = ResolveResult.Found
          (stripOut (find_using_pyenv cfg.basepython w.sysfind w.firstWhich))
    ∧ processCount cfg w = 1 := by
  constructor <;>
    simp [tox_get_python_executable, processCount, resolveWithCount,
      pollZero_find, hok]

/-- Exit of the hook when the initial `which` failed and auto-install is
off: the fallback/raise decision on the initial `which` state. -/
theorem resolve_no_auto (cfg : EnvConfig) (w : World)
    (hauto : cfg.tox_pyenv_auto_install = false)
    (hfail : whichOk w.firstWhich = false) :
    tox_get_python_executable cfg w
      = fallbackOrRaise cfg
          (find_using_pyenv cfg.basepython w.sysfind w.firstWhich) := by
  simp [tox_get_python_executable, resolveWithCount, pollZero_find, hfail,
    hauto]

/-- Exit of the hook when the initial `which` failed, auto-install is on,
and the install attempt does not trigger the retry: the fallback/raise
decision on the install state. -/
theorem resolve_auto_no_retry (cfg : EnvConfig) (w : World)
    (hauto : cfg.tox_pyenv_auto_install = true)
    (hfail : whichOk w.firstWhich = false)
    (hni : installTriggersRetry w.install = false) :
    tox_get_python_executable cfg w
      = fallbackOrRaise cfg
          (install_using_pyenv cfg.basepython w.sysfind w.install) := by
  simp [tox_get_python_executable, resolveWithCount, pollZero_find, hfail,
    hauto, retry_cond_install, hni]

/-- Exit of the hook when the retry happened but the retried `which`
failed: the fallback/raise decision on the retried `which` state. -/
theorem resolve_auto_retry_failed (cfg : EnvConfig) (w : World)
    (hauto : cfg.tox_pyenv_auto_install = true)
    (hfail : whichOk w.firstWhich = false)
    (hti : installTriggersRetry w.install = true)
    (hrf : whichOk w.retryWhich = false) :
    tox_get_python_executable cfg w
      = fallbackOrRaise cfg
          (find_using_pyenv cfg.basepython w.sysfind w.retryWhich) := by
  simp [tox_get_python_executable, resolveWithCount, pollZero_find, hfail,
    hauto, retry_cond_install, hti, hrf]

/-- Exit of the hook when the retry happened and the retried `which`
succeeded: the retried stdout, stripped. -/
theorem resolve_auto_retry_ok (cfg : EnvConfig) (w : World)
    (hauto : cfg.tox_pyenv_auto_install = true)
    (hfail : whichOk w.firstWhich = false)
    (hti : installTriggersRetry w.install = true)
    (hrok : whichOk w.retryWhich = true) :
    tox_get_python_executable cfg w
      = ResolveResult.Found
          (stripOut (find_using_pyenv cfg.basepython w.sysfind w.retryWhich)) := by
  simp [tox_get_python_executable, resolveWithCount, pollZero_find, hfail,
    hauto, retry_cond_install, hti, hrok]

/-- C1: whenever the initial `pyenv which` subprocess launches and exits
with code exactly 0, `tox_get_python_executable` returns the captured
stdout stripped of leading/trailing whitespace, and no `pyenv install`
process is attempted (exactly one process is launched), regardless of the
`tox_pyenv_auto_install` and `tox_pyenv_fallback` flags. -/
theorem which_exit_zero_found (cfg : EnvConfig) (w : World) (r : ProcResult)
    (hw : w.firstWhich = LaunchOutcome.launched r) (hz : r.exitCode = 0) :
    tox_get_python_executable cfg w = ResolveResult.Found (strip r.stdout)
    ∧ processCount cfg w = 1 := by
  have hok : whichOk w.firstWhich = true := by
    rw [hw]; simp [whichOk, hz]
  have h := resolve_which_ok cfg w hok
  refine ⟨?_, h.2⟩
  rw [h.1, hw, stripOut_find]

/-- C1 witness: with both flags on and `which` exiting 0 with stdout
`" /p/python\n"`, the hook returns `"/p/python"` after one process. -/
theorem which_exit_zero_found_witness :
    tox_get_python_executable ⟨"3.9.1", true, true⟩
        ⟨none, LaunchOutcome.launched ⟨0, " /p/python\n", ""⟩,
          LaunchOutcome.osError, LaunchOutcome.osError⟩
      = ResolveResult.Found "/p/python"
    ∧ processCount ⟨"3.9.1", true, true⟩
        ⟨none, LaunchOutcome.launched ⟨0, " /p/python\n", ""⟩,
          LaunchOutcome.osError, LaunchOutcome.osError⟩
      = 1 := by
  have h := which_exit_zero_found ⟨"3.9.1", true, true⟩
    ⟨none, LaunchOutcome.launched ⟨0, " /p/python\n", ""⟩,
      LaunchOutcome.osError, LaunchOutcome.osError⟩
    ⟨0, " /p/python\n", ""⟩ rfl rfl
  refine ⟨?_, h.2⟩
  rw [h.1]; decide

/-- C2: when the initial `pyenv which` exits non-zero or fails to launch
and auto-install is off, the hook defers (returns `None`) if fallback is
enabled, and raises `PyenvWhichFailed` carrying the captured stderr (the
synthesized `'pyenv': command not found` string when the launch itself
failed) if fallback is disabled. -/
theorem which_failed_no_auto (cfg : EnvConfig) (w : World)
    (hauto : cfg.tox_pyenv_auto_install = false)
    (hfail : whichOk w.firstWhich = false) :
    (cfg.tox_pyenv_fallback = true →
        tox_get_python_executable cfg w = ResolveResult.Deferred)
    ∧ (cfg.tox_pyenv_fallback = false →
        tox_get_python_executable cfg w
          = ResolveResult.Raised (whichErr w.firstWhich)) := by
  have h := resolve_no_auto cfg w hauto hfail
  constructor <;> intro hf <;> rw [h] <;>
    simp [fallbackOrRaise, hf, err_find]

/-- C2 witness: `which` exits 1 with stderr
`"3.9.1: version not installed"`, auto-install off, fallback off — the
hook raises with exactly that message. -/
theorem which_failed_no_auto_witness :
    tox_get_python_executable ⟨"3.9.1", false, false⟩
        ⟨none,
          LaunchOutcome.launched ⟨1, "", "3.9.1: version not installed"⟩,
          LaunchOutcome.osError, LaunchOutcome.osError⟩
      = ResolveResult.Raised "3.9.1: version not installed" := by
  have h := which_failed_no_auto ⟨"3.9.1", false, false⟩
    ⟨none, LaunchOutcome.launched ⟨1, "", "3.9.1: version not installed"⟩,
      LaunchOutcome.osError, LaunchOutcome.osError⟩ rfl rfl
  exact h.2 rfl

/-- C3: when the initial `which` fails, auto-install is on, the `pyenv
install` process launches with empty stderr, and the retried `which`
exits 0, the hook returns the retried stdout, stripped. -/
theorem auto_install_retry_success (cfg : EnvConfig) (w : World)
    (ri rw2 : ProcResult)
    (hauto : cfg.tox_pyenv_auto_install = true)
    (hfail : whichOk w.firstWhich = false)
    (hi : w.install = LaunchOutcome.launched ri) (hie : ri.stderr = "")
    (hr : w.retryWhich = LaunchOutcome.launched rw2)
    (hrz : rw2.exitCode = 0) :
    tox_get_python_executable cfg w
      = ResolveResult.Found (strip rw2.stdout) := by
  have hti : installTriggersRetry w.install = true := by
    rw [hi]; simp [installTriggersRetry, hie]
  have hrok : whichOk w.retryWhich = true := by
    rw [hr]; simp [whichOk, hrz]
  have h := resolve_auto_retry_ok cfg w hauto hfail hti hrok
  rw [h, hr, stripOut_find]

/-- C3 witness: `which` exits 1, install runs with empty stderr, retried
`which` exits 0 with stdout `"/new/python\n"` — the hook returns
`"/new/python"`. -/
theorem auto_install_retry_success_witness :
    tox_get_python_executable ⟨"3.9.1", true, false⟩
        ⟨none, LaunchOutcome.launched ⟨1, "", "nope"⟩,
          LaunchOutcome.launched ⟨0, "installed", ""⟩,
          LaunchOutcome.launched ⟨0, "/new/python\n", ""⟩⟩
      = ResolveResult.Found "/new/python" := by
  have h := auto_install_retry_success ⟨"3.9.1", true, false⟩
    ⟨none, LaunchOutcome.launched ⟨1, "", "nope"⟩,
      LaunchOutcome.launched ⟨0, "installed", ""⟩,
      LaunchOutcome.launched ⟨0, "/new/python\n", ""⟩⟩
    ⟨0, "installed", ""⟩ ⟨0, "/new/python\n", ""⟩ rfl rfl rfl rfl rfl rfl
  rw [h]; decide

/-- C9: when `which` exits 0 and its stdout strips to the empty string,
the hook returns `Found ""` — the stripped stdout is passed through with
no validation. -/
theorem which_zero_whitespace_stdout (cfg : EnvConfig) (w : World)
    (r : ProcResult) (hw : w.firstWhich = LaunchOutcome.launched r)
    (hz : r.exitCode = 0) (hws : strip r.stdout = "") :
    tox_get_python_executable cfg w = ResolveResult.Found "" := by
  have hok : whichOk w.firstWhich = true := by
    rw [hw]; simp [whichOk, hz]
  have h := resolve_which_ok cfg w hok
  rw [h.1, hw, stripOut_find, hws]

/-- C9 witness: `which` exits 0 printing only `"  \n"` — the hook returns
`Found ""`. -/
theorem which_zero_whitespace_stdout_witness :
    tox_get_python_executable ⟨"3.9.1", false, true⟩
        ⟨none, LaunchOutcome.launched ⟨0, "  \n", ""⟩,
          LaunchOutcome.osError, LaunchOutcome.osError⟩
      = ResolveResult.Found "" :=
  which_zero_whitespace_stdout ⟨"3.9.1", false, true⟩
    ⟨none, LaunchOutcome.launched ⟨0, "  \n", ""⟩,
      LaunchOutcome.osError, LaunchOutcome.osError⟩
    ⟨0, "  \n", ""⟩ rfl rfl (by decide)

/-- C4 (amended): when the initial `which` fails, auto-install is on, and
the auto-install branch finds nothing (the install attempt does not
trigger the retry, or the retried `which` fails), the hook takes the same
fallback/failure branch as it would with auto-install off — `Deferred`
when fallback is enabled, a raise when it is disabled — but the raised
message is the `err` of the last attempt (`autoFallthroughErr`), not
necessarily the initial `which`'s stderr. -/
theorem auto_install_failure_falls_through (cfg : EnvConfig) (w : World)
    (hauto : cfg.tox_pyenv_auto_install = true)
    (hfail : whichOk w.firstWhich = false)
    (hnf : installTriggersRetry w.install = false
        ∨ whichOk w.retryWhich = false) :
    (cfg.tox_pyenv_fallback = true →
        tox_get_python_executable cfg w = ResolveResult.Deferred
        ∧ tox_get_python_executable
            ⟨cfg.basepython, false, cfg.tox_pyenv_fallback⟩ w
          = ResolveResult.Deferred)
    ∧ (cfg.tox_pyenv_fallback = false →
        tox_get_python_executable cfg w
          = ResolveResult.Raised (autoFallthroughErr w)
        ∧ tox_get_python_executable
            ⟨cfg.basepython, false, cfg.tox_pyenv_fallback⟩ w
          = ResolveResult.Raised (whichErr w.firstWhich)) := by
  have hno := resolve_no_auto
    ⟨cfg.basepython, false, cfg.tox_pyenv_fallback⟩ w rfl hfail
  cases hti : installTriggersRetry w.install with
  | false =>
    have h := resolve_auto_no_retry cfg w hauto hfail hti
    constructor <;> intro hf <;>
      exact ⟨by rw [h]; simp [fallbackOrRaise, hf, err_install,
              autoFallthroughErr, hti],
            by rw [hno]; simp [fallbackOrRaise, hf, err_find]⟩
  | true =>
    have hrf : whichOk w.retryWhich = false := by
      rcases hnf with hni | hrf
      · rw [hti] at hni; exact absurd hni (by simp)
      · exact hrf
    have h := resolve_auto_retry_failed cfg w hauto hfail hti hrf
    constructor <;> intro hf <;>
      exact ⟨by rw [h]; simp [fallbackOrRaise, hf, err_find,
              autoFallthroughErr, hti],
            by rw [hno]; simp [fallbackOrRaise, hf, err_find]⟩

/-- C4 witness: first `which` exits 1 with stderr `"E1"`, the install
runs but prints `"E2"` to stderr, fallback is off.  With auto-install on
the raise carries `"E2"`; with auto-install off it carries `"E1"`. -/
theorem auto_install_failure_falls_through_witness :
    tox_get_python_executable ⟨"3.9.1", true, false⟩
        ⟨none, LaunchOutcome.launched ⟨1, "", "E1"⟩,
          LaunchOutcome.launched ⟨0, "", "E2"⟩, LaunchOutcome.osError⟩
      = ResolveResult.Raised "E2"
    ∧ tox_get_python_executable ⟨"3.9.1", false, false⟩
        ⟨none, LaunchOutcome.launched ⟨1, "", "E1"⟩,
          LaunchOutcome.launched ⟨0, "", "E2"⟩, LaunchOutcome.osError⟩
      = ResolveResult.Raised "E1" := by
  have h := auto_install_failure_falls_through ⟨"3.9.1", true, false⟩
    ⟨none, LaunchOutcome.launched ⟨1, "", "E1"⟩,
      LaunchOutcome.launched ⟨0, "", "E2"⟩, LaunchOutcome.osError⟩
    rfl rfl (Or.inl (by decide))
  have h2 := h.2 rfl
  exact ⟨h2.1, h2.2⟩

/-- C4 counterexample: at the same input, the outcome with auto-install
on differs from the outcome with auto-install off — the install attempt's
stderr `"E2"` overwrites the original `which` stderr `"E1"` before the
raise, so the two runs raise different messages. -/
theorem auto_install_failure_message_overwritten :
    tox_get_python_executable ⟨"3.9.1", true, false⟩
        ⟨none, LaunchOutcome.launched ⟨1, "", "E1"⟩,
          LaunchOutcome.launched ⟨0, "", "E2"⟩, LaunchOutcome.osError⟩
      ≠ tox_get_python_executable ⟨"3.9.1", false, false⟩
        ⟨none, LaunchOutcome.launched ⟨1, "", "E1"⟩,
          LaunchOutcome.launched ⟨0, "", "E2"⟩, LaunchOutcome.osError⟩ := by
  decide

/-- C5 (code bug): the `--tox-pyenv-auto-install` option is declared with
`action='store_false'` and `default=False`, so the parsed value of
`tox_pyenv_auto_install` is `false` whether or not the flag is present —
the flag can never enable auto-install from the command line, contrary to
its own help text. -/
theorem auto_install_flag_parses_false :
    parsed_tox_pyenv_auto_install true = false
    ∧ parsed_tox_pyenv_auto_install false = false := by
  decide

/-- C6 (amended): every resolve call makes at most three `Popen`
attempts: the initial `which`, and optionally the `install` followed by
the retried `which`. -/
theorem processCount_le_three (cfg : EnvConfig) (w : World) :
    processCount cfg w ≤ 3 := by
  simp only [processCount, resolveWithCount]
  split_ifs <;> simp

/-- C6 counterexample: with auto-install on, a failed first `which`, an
install that launches with empty stderr, and a failed retried `which`,
the call makes three `Popen` attempts — more than two. -/
theorem processCount_reaches_three :
    processCount ⟨"3.9.1", true, true⟩
        ⟨none, LaunchOutcome.launched ⟨1, "", "e"⟩,
          LaunchOutcome.launched ⟨0, "", ""⟩,
          LaunchOutcome.launched ⟨1, "", "e"⟩⟩ = 3
    ∧ ¬ (processCount ⟨"3.9.1", true, true⟩
        ⟨none, LaunchOutcome.launched ⟨1, "", "e"⟩,
          LaunchOutcome.launched ⟨0, "", ""⟩,
          LaunchOutcome.launched ⟨1, "", "e"⟩⟩ ≤ 2) := by
  decide

/-- C7 (amended): when the PATH search for `pyenv` finds nothing, the
command still uses the literal name `pyenv`; and when that launch raises
`OSError` and auto-install is off, the outcome follows the
fallback/no-fallback branch with the synthesized message
`'pyenv': command not found` — with fallback disabled,
`PyenvWhichFailed` is raised with exactly that message.  (With
auto-install on, the failed install attempt overwrites the message; see
the C4 theorems.) -/
theorem missing_pyenv_literal_fallback (cfg : EnvConfig) (w : World)
    (hsf : w.sysfind = none) (hos : w.firstWhich = LaunchOutcome.osError)
    (hauto : cfg.tox_pyenv_auto_install = false) :
    (find_using_pyenv cfg.basepython w.sysfind w.firstWhich).cmd
      = ["pyenv", "which", cfg.basepython]
    ∧ (cfg.tox_pyenv_fallback = true →
        tox_get_python_executable cfg w = ResolveResult.Deferred)
    ∧ (cfg.tox_pyenv_fallback = false →
        tox_get_python_executable cfg w
          = ResolveResult.Raised "\x27pyenv\x27: command not found") := by
  have hfail : whichOk w.firstWhich = false := by rw [hos]; rfl
  have h := resolve_no_auto cfg w hauto hfail
  refine ⟨?_, ?_, ?_⟩
  · rw [hsf, hos]; rfl
  · intro hf; rw [h]; simp [fallbackOrRaise, hf]
  · intro hf; rw [h]
    simp [fallbackOrRaise, hf, err_find, whichErr, hos]

/-- C7 witness: PATH search empty, `which` launch raises `OSError`,
auto-install off, fallback off — the attempted command is the literal
`pyenv which 3.9.1` and the raise carries the synthesized message. -/
theorem missing_pyenv_literal_fallback_witness :
    (find_using_pyenv "3.9.1" none LaunchOutcome.osError).cmd
      = ["pyenv", "which", "3.9.1"]
    ∧ tox_get_python_executable ⟨"3.9.1", false, false⟩
        ⟨none, LaunchOutcome.osError, LaunchOutcome.osError,
          LaunchOutcome.osError⟩
      = ResolveResult.Raised "\x27pyenv\x27: command not found" := by
  have h := missing_pyenv_literal_fallback ⟨"3.9.1", false, false⟩
    ⟨none, LaunchOutcome.osError, LaunchOutcome.osError,
      LaunchOutcome.osError⟩ rfl rfl rfl
  exact ⟨h.1, h.2.2 rfl⟩

/-- C7 counterexample: with auto-install ON and `pyenv` entirely missing
(every launch raises `OSError`), the no-fallback raise carries
`install failed` — not the synthesized `'pyenv': command not found` the
claim promises for every such call. -/
theorem missing_pyenv_auto_install_message :
    tox_get_python_executable ⟨"3.9.1", true, false⟩
        ⟨none, LaunchOutcome.osError, LaunchOutcome.osError,
          LaunchOutcome.osError⟩
      = ResolveResult.Raised "install failed"
    ∧ ResolveResult.Raised "install failed"
      ≠ ResolveResult.Raised "\x27pyenv\x27: command not found" := by
  decide

/-- C8: for both plugin options, the postprocess combines the parsed
command-line value and the per-environment configuration value by logical
OR: the effective value is true exactly when either source is true. -/
theorem postprocess_is_or (c v : Bool) :
    _pyenv_fallback c v = (c || v)
    ∧ _pyenv_auto_install c v = (c || v)
    ∧ (_pyenv_fallback c v = true ↔ (c = true ∨ v = true))
    ∧ (_pyenv_auto_install c v = true ↔ (c = true ∨ v = true)) := by
  cases c <;> cases v <;>
    simp [_pyenv_fallback, _pyenv_auto_install]

/-- C10: in the auto-install branch, the retry decision looks only at
whether the install launched and whether its stderr is empty.  An install
that exits non-zero but prints nothing to stderr still triggers the
retried `which` (first part: the result is the retried which's, for any
install exit code); an install that exits 0 but prints to stderr does not
(second part: the result is the fallback/raise decision on the install's
stderr, never consulting the retried `which`). -/
theorem install_retry_ignores_exit_code (cfg : EnvConfig) (w : World)
    (hauto : cfg.tox_pyenv_auto_install = true)
    (hfail : whichOk w.firstWhich = false) :
    (∀ code out rw2, w.install = LaunchOutcome.launched ⟨code, out, ""⟩ →
        w.retryWhich = LaunchOutcome.launched rw2 → rw2.exitCode = 0 →
        tox_get_python_executable cfg w
          = ResolveResult.Found (strip rw2.stdout))
    ∧ (∀ out e, e ≠ "" → w.install = LaunchOutcome.launched ⟨0, out, e⟩ →
        tox_get_python_executable cfg w
          = if cfg.tox_pyenv_fallback then ResolveResult.Deferred
            else ResolveResult.Raised e) := by
  constructor
  · intro code out rw2 hi hr hrz
    have hti : installTriggersRetry w.install = true := by
      rw [hi]; rfl
    have hrok : whichOk w.retryWhich = true := by
      rw [hr]; simp [whichOk, hrz]
    have h := resolve_auto_retry_ok cfg w hauto hfail hti hrok
    rw [h, hr, stripOut_find]
  · intro out e he hi
    have hti : installTriggersRetry w.install = false := by
      rw [hi]; simpa [installTriggersRetry] using he
    have h := resolve_auto_no_retry cfg w hauto hfail hti
    rw [h]
    cases hfb : cfg.tox_pyenv_fallback <;>
      simp [fallbackOrRaise, hfb, err_install, hi, installErr]

/-- C10 witness: an install that exits 127 with empty stderr still leads
to the retried `which` (whose stdout `"/new\n"` is returned stripped);
an install that exits 0 but prints `"warn"` to stderr skips the retry and
the no-fallback raise carries `"warn"`. -/
theorem install_retry_ignores_exit_code_witness :
    tox_get_python_executable ⟨"3.9.1", true, true⟩
        ⟨none, LaunchOutcome.launched ⟨1, "", "missing"⟩,
          LaunchOutcome.launched ⟨127, "", ""⟩,
          LaunchOutcome.launched ⟨0, "/new\n", ""⟩⟩
      = ResolveResult.Found "/new"
    ∧ tox_get_python_executable ⟨"3.9.1", true, false⟩
        ⟨none, LaunchOutcome.launched ⟨1, "", "missing"⟩,
          LaunchOutcome.launched ⟨0, "", "warn"⟩,
          LaunchOutcome.launched ⟨0, "/new\n", ""⟩⟩
      = ResolveResult.Raised "warn" := by
  have h1 := install_retry_ignores_exit_code ⟨"3.9.1", true, true⟩
    ⟨none, LaunchOutcome.launched ⟨1, "", "missing"⟩,
      LaunchOutcome.launched ⟨127, "", ""⟩,
      LaunchOutcome.launched ⟨0, "/new\n", ""⟩⟩ rfl rfl
  have h2 := install_retry_ignores_exit_code ⟨"3.9.1", true, false⟩
    ⟨none, LaunchOutcome.launched ⟨1, "", "missing"⟩,
      LaunchOutcome.launched ⟨0, "", "warn"⟩,
      LaunchOutcome.launched ⟨0, "/new\n", ""⟩⟩ rfl rfl
  constructor
  · have e1 := h1.1 127 "" ⟨0, "/new\n", ""⟩ rfl rfl rfl
    rw [e1]; decide
  · have e2 := h2.2 "" "warn" (by decide) rfl
    rw [e2]; rfl
